import Mathlib

/-!
Shallow embedding of `src/tools/shell/shell_wasm/src/lib.rs` (the microkernel
WASM shell).  Byte strings are `List Nat` (each entry an ASCII byte value);
the host capability interface (`mk_send`, `mk_lookup`, `mk_recv_timeout`, ...)
is a record of oracle functions, and every command handler is a pure function
from that record to the trace of observable events (prints, sends, receives)
it performs, in order.
-/

/-- the bytes of an ASCII string literal, as natural numbers. -/
def bs (s : String) : List Nat := s.toList.map Char.toNat

/-- `trim` (lib.rs:120): is the byte one of space, tab, newline, CR. -/
def isSpaceByte (b : Nat) : Bool := b = 32 || b = 9 || b = 10 || b = 13

/-- `trim` (lib.rs:120-130): strip leading and trailing whitespace bytes. -/
def trim (s : List Nat) : List Nat :=
  ((s.dropWhile isSpaceByte).reverse.dropWhile isSpaceByte).reverse

/-- `starts_with` (lib.rs:132-134). -/
def starts_with (haystack needle : List Nat) : Bool :=
  decide (needle.length ≤ haystack.length) && haystack.take needle.length = needle

/-- modulus of the `u64` machine type. -/
def U64 : Nat := 2 ^ 64

/-- loop body of `parse_u64` (lib.rs:140-147): wrapping multiply-add base 10. -/
def parse_u64_loop : Nat → List Nat → Option Nat
  | n, [] => some n
  | n, b :: rest =>
    if b < 48 || 57 < b then none
    else parse_u64_loop ((n * 10 % U64 + (b - 48)) % U64) rest

/-- `parse_u64` (lib.rs:136-148): empty is `None`; wrapping accumulation. -/
def parse_u64 (s : List Nat) : Option Nat :=
  if s = [] then none else parse_u64_loop 0 s

/-- reinterpret a `u64` value as `i64` (two's complement). -/
def i64_of_u64 (n : Nat) : Int :=
  if n % U64 < 2 ^ 63 then ((n % U64 : Nat) : Int) else ((n % U64 : Nat) : Int) - 2 ^ 64

/-- reinterpret a `u64` value as `i32` (truncate, two's complement). -/
def i32_of_u64 (n : Nat) : Int :=
  if n % 2 ^ 32 < 2 ^ 31 then ((n % 2 ^ 32 : Nat) : Int) else ((n % 2 ^ 32 : Nat) : Int) - 2 ^ 32

/-- reinterpret an `i64` value as `u64` (two's complement). -/
def u64_of_i64 (i : Int) : Nat := (i % (2 ^ 64 : Int)).toNat

/-- `parse_i32` (lib.rs:150-152): `parse_u64` then `as i32`. -/
def parse_i32 (s : List Nat) : Option Int := (parse_u64 s).map i32_of_u64

/-- loop of `parse_u16` (lib.rs:154-161): stops at the first non-digit. -/
def parse_u16_loop : Nat → List Nat → Nat
  | n, [] => n
  | n, b :: rest =>
    if b < 48 || 57 < b then n
    else parse_u16_loop ((n * 10 % 65536 + (b - 48)) % 65536) rest

/-- `parse_u16` (lib.rs:154-161). -/
def parse_u16 (s : List Nat) : Nat := parse_u16_loop 0 s

/-- `split_first_space` (lib.rs:167-175): split at the first space or tab,
trimming the remainder; if none, the whole input is the first component. -/
def split_first_space : List Nat → List Nat × List Nat
  | [] => ([], [])
  | b :: rest =>
    if b = 32 || b = 9 then ([], trim rest)
    else
      let p := split_first_space rest
      (b :: p.1, p.2)

/-- mathematical value of a base-10 digit string (no wrapping); used to state
what the numeral denotes. -/
def numValue (s : List Nat) : Nat := s.foldl (fun a b => a * 10 + (b - 48)) 0

/-- decimal rendering of a `u64`, as `print_u64` (lib.rs:96-109) emits it. -/
def u64dec (n : Nat) : List Nat := (Nat.toDigits 10 n).map Char.toNat

/-- the first two steps of `extract_name` (lib.rs:189-206): the substring
after the last `/`, truncated at the first `?`. -/
def shell_filename (path : List Nat) : List Nat :=
  ((path.reverse.takeWhile (fun b => b ≠ 47)).reverse).takeWhile (fun b => b ≠ 63)

/-- `extract_name` (lib.rs:188-214): `shell_filename`, with a trailing `.wasm`
stripped when the remaining filename is strictly longer than 5 bytes. -/
def extract_name (path : List Nat) : List Nat :=
  let f := shell_filename path
  if 5 < f.length ∧ f.drop (f.length - 5) = bs ".wasm" then f.take (f.length - 5)
  else f

/-- Worded from the spec sentence for the refinement comparison of C8: take
the substring after the last `/`, truncate at the first `?`, and strip a
trailing `.wasm` suffix whenever it is present. -/
def extract_name_spec (path : List Nat) : List Nat :=
  let f := shell_filename path
  if (bs ".wasm").isSuffixOf f then f.take (f.length - 5)
  else f

/-- table of lowercase hex digit bytes (lib.rs:794). -/
def hexTable : List Nat := bs "0123456789abcdef"

/-- the 16 zero-padded lowercase hex digits of a `u64` timestamp, most
significant nibble first (lib.rs:795-799). -/
def hex16 (ts : Nat) : List Nat :=
  (List.range 16).reverse.map (fun i => hexTable.getD (ts / 16 ^ i % 16) 0)

/-- an inbound message as written by `mk_recv_timeout` through its out
parameters: type tag, buffer contents, reported size, sender identity. -/
structure Msg where
  type : Nat
  data : List Nat
  size : Nat
  source : Int
  deriving DecidableEq

/-- observable events a command handler performs, in order. -/
inductive Ev where
  | out (s : List Nat)
  | send (dest : Int) (ty : Int) (payload : List Nat)
  | recv (timeout : Nat)
  | stop (id : Int)
  | reg (name : List Nat)
  deriving DecidableEq

/-- the host capability interface of lib.rs:14-50, as oracles.  `recv` takes
the index of the receive within the current command (0 for the first) and the
timeout, and returns the status code plus the message data written through the
out parameters (meaningful when the status is nonnegative). -/
structure Host where
  lookup : List Nat → Int
  send : Int → Int → List Nat → Int
  recv : Nat → Nat → Int × Msg
  node_name : Int × List Nat
  self : Int
  time_ms : Int
  list_actors : Int × List Int
  reverse_lookup : Int → Int × List Nat
  read_file : List Nat → Int × Nat × List Nat
  http_get : List Nat → Int × Nat × Nat × List Nat
  ns_list : List Nat → Int × Nat × List Nat
  register : List Nat → Int
  stop : Int → Int

/-- `resolve_target` (lib.rs:178-184): name lookup first; on the reserved
invalid identity 0, fall back to parsing a base-10 numeral as a literal id. -/
def resolve_target (lookup : List Nat → Int) (arg : List Nat) : Option Int :=
  let id := lookup arg
  if id ≠ 0 then some id
  else (parse_u64 arg).map i64_of_u64

/-- `print_msg_payload` (lib.rs:216-227): preview of at most 64 payload bytes,
with an ellipsis when truncated; nothing when empty. -/
def payload_preview (data : List Nat) (bufcap size : Nat) : List Ev :=
  let len := min size bufcap
  let display := min len 64
  if 0 < display then
    [Ev.out (bs " \""), Ev.out (data.take display)] ++
      (if display < len then [Ev.out (bs "...")] else []) ++ [Ev.out (bs "\"")]
  else []

/-- the `[reply] ...` report of `cmd_call` (lib.rs:556-563). -/
def reply_report (m : Msg) : List Ev :=
  [Ev.out (bs "[reply] type="), Ev.out (u64dec m.type), Ev.out (bs " from="),
   Ev.out (u64dec (u64_of_i64 m.source)), Ev.out (bs " size="),
   Ev.out (u64dec m.size)] ++ payload_preview m.data 1024 m.size ++ [Ev.out (bs "\n")]

/-- `cmd_call` (lib.rs:491-564). -/
def cmd_call (h : Host) (arg : List Nat) : List Ev :=
  let target_str := (split_first_space arg).1
  let rest := (split_first_space arg).2
  if target_str = [] then [Ev.out (bs "usage: call <name-or-id> <type> [payload]\n")]
  else
    match resolve_target h.lookup target_str with
    | none => [Ev.out (bs "error: unknown target '"), Ev.out target_str, Ev.out (bs "'\n")]
    | some dest =>
      let type_str := (split_first_space rest).1
      let payload := (split_first_space rest).2
      if type_str = [] then [Ev.out (bs "usage: call <name-or-id> <type> [payload]\n")]
      else
        match parse_i32 type_str with
        | none => [Ev.out (bs "error: invalid message type\n")]
        | some msg_type =>
          let rc := h.send dest msg_type payload
          if rc = 0 then [Ev.send dest msg_type payload, Ev.out (bs "error: send failed\n")]
          else
            let r := h.recv 0 5000
            let pre := [Ev.send dest msg_type payload, Ev.recv 5000]
            if r.1 = -2 then pre ++ [Ev.out (bs "Timeout (5s)\n")]
            else if r.1 < 0 then pre ++ [Ev.out (bs "error: recv failed\n")]
            else pre ++ reply_report r.2

/-- `cmd_stop` (lib.rs:566-584): note the status of the host stop call is
discarded. -/
def cmd_stop (h : Host) (arg : List Nat) : List Ev :=
  if arg = [] then [Ev.out (bs "usage: stop <name-or-id>\n")]
  else
    match resolve_target h.lookup arg with
    | none => [Ev.out (bs "error: unknown target '"), Ev.out arg, Ev.out (bs "'\n")]
    | some id =>
      [Ev.stop id, Ev.out (bs "Stopped actor "), Ev.out (u64dec (u64_of_i64 id)),
       Ev.out (bs "\n")]

/-- the two-print rendering of `print_i32` (lib.rs:111-118); a negative `i32`
is printed as a minus sign followed by `(-n) as u64` in decimal. -/
def i32dec_evs (n : Int) : List Ev :=
  if n < 0 then
    [Ev.out (bs "-"), Ev.out (u64dec (u64_of_i64 (i32_of_u64 ((-n) % 2 ^ 32).toNat)))]
  else [Ev.out (u64dec n.toNat)]

/-- `cmd_send` (lib.rs:445-489). -/
def cmd_send (h : Host) (arg : List Nat) : List Ev :=
  let target_str := (split_first_space arg).1
  let rest := (split_first_space arg).2
  if target_str = [] then [Ev.out (bs "usage: send <name-or-id> <type> [payload]\n")]
  else
    match resolve_target h.lookup target_str with
    | none => [Ev.out (bs "error: unknown target '"), Ev.out target_str, Ev.out (bs "'\n")]
    | some dest =>
      let type_str := (split_first_space rest).1
      let payload := (split_first_space rest).2
      if type_str = [] then [Ev.out (bs "usage: send <name-or-id> <type> [payload]\n")]
      else
        match parse_i32 type_str with
        | none => [Ev.out (bs "error: invalid message type\n")]
        | some msg_type =>
          let rc := h.send dest msg_type payload
          Ev.send dest msg_type payload ::
            (if rc ≠ 0 then
              [Ev.out (bs "Sent type=")] ++ i32dec_evs msg_type ++
                [Ev.out (bs " to actor "), Ev.out (u64dec (u64_of_i64 dest)), Ev.out (bs "\n")]
            else [Ev.out (bs "error: send failed\n")])

/-- `cmd_register` (lib.rs:586-599). -/
def cmd_register (h : Host) (arg : List Nat) : List Ev :=
  if arg = [] then [Ev.out (bs "usage: register <name>\n")]
  else
    let rc := h.register arg
    Ev.reg arg ::
      (if rc = 0 then [Ev.out (bs "Registered as '"), Ev.out arg, Ev.out (bs "'\n")]
       else [Ev.out (bs "error: register failed\n")])

/-- `cmd_lookup` (lib.rs:601-614). -/
def cmd_lookup (h : Host) (arg : List Nat) : List Ev :=
  if arg = [] then [Ev.out (bs "usage: lookup <name>\n")]
  else
    let id := h.lookup arg
    if id = 0 then [Ev.out (bs "Not found\n")]
    else [Ev.out (bs "Actor "), Ev.out (u64dec (u64_of_i64 id)), Ev.out (bs "\n")]

/-- `cmd_self_id` (lib.rs:616-621). -/
def cmd_self_id (h : Host) : List Ev :=
  [Ev.out (bs "Self: "), Ev.out (u64dec (u64_of_i64 h.self)), Ev.out (bs "\n")]

/-- `cmd_whoami` (lib.rs:229-242). -/
def cmd_whoami (h : Host) : List Ev :=
  let len := h.node_name.1
  let nb := h.node_name.2
  (if 0 < len then
    [Ev.out (bs "/node/"), Ev.out (nb.take (min len.toNat 1024)), Ev.out (bs "\n")]
   else []) ++
    [Ev.out (bs "Actor ID: "), Ev.out (u64dec (u64_of_i64 h.self)), Ev.out (bs "\n")]

/-- `cmd_ns_list` (lib.rs:244-264). -/
def cmd_ns_list (h : Host) (pre : List Nat) : List Ev :=
  let r := h.ns_list pre
  if r.1 < 0 then [Ev.out (bs "error: ns_list failed\n")]
  else if r.2.1 = 0 then [Ev.out (bs "(empty)\n")]
  else [Ev.out (r.2.2.take (min r.2.1 32768))]

/-- `cmd_help` (lib.rs:266-283). -/
def cmd_help : List Ev :=
  [Ev.out (bs "Commands:\n"),
   Ev.out (bs "  help                              Show this help\n"),
   Ev.out (bs "  list                              List active actors\n"),
   Ev.out (bs "  ls /prefix                        List namespace entries by prefix\n"),
   Ev.out (bs "  load <path-or-url>                Load WASM actor from file or URL\n"),
   Ev.out (bs "  send <name-or-id> <type> [data]   Send message to actor\n"),
   Ev.out (bs "  call <name-or-id> <type> [data]   Send and wait for reply (5s)\n"),
   Ev.out (bs "  stop <name-or-id>                 Stop an actor\n"),
   Ev.out (bs "  register <name>                   Register self by name\n"),
   Ev.out (bs "  lookup <name>                     Lookup actor by name\n"),
   Ev.out (bs "  mount <host>[:<port>]             Connect to remote node (default port 4200)\n"),
   Ev.out (bs "  caps [target]                    Query node capabilities\n"),
   Ev.out (bs "  history [clear]                   Show or clear command history\n"),
   Ev.out (bs "  whoami                            Show node identity and actor ID\n"),
   Ev.out (bs "  self                              Print own actor ID\n"),
   Ev.out (bs "  exit                              Shut down\n")]

/-- `cmd_list` (lib.rs:285-312). -/
def cmd_list (h : Host) : List Ev :=
  let r := h.list_actors
  if r.1 < 0 then [Ev.out (bs "error: mk_list_actors failed\n")]
  else
    [Ev.out (bs "Active actors ("), Ev.out (u64dec r.2.length), Ev.out (bs "):\n")] ++
      (r.2.map (fun id =>
        [Ev.out (bs "  "), Ev.out (u64dec (u64_of_i64 id))] ++
          (let rl := h.reverse_lookup id
           if 0 < rl.1 then [Ev.out (bs "  "), Ev.out (rl.2.take (min rl.1.toNat 128))]
           else [Ev.out (bs "  (unnamed)")]) ++ [Ev.out (bs "\n")])).flatten

/-- the back half of `cmd_load` (lib.rs:364-411): framing and spawn request. -/
def load_rest (h : Host) (arg : List Nat) (size : Nat) (data : List Nat) : List Ev :=
  if size = 0 then [Ev.out (bs "error: empty file/response\n")]
  else
    let name := extract_name arg
    let name_len := if 63 < name.length then 63 else name.length
    let plen := 1 + name_len
    if 32768 < size + plen then [Ev.out (bs "error: file too large for name prefix\n")]
    else
      let framed := name_len :: (name.take name_len ++ data.take size)
      let console := h.lookup (bs "console")
      if console = 0 then [Ev.out (bs "error: console actor not found\n")]
      else
        let sent := h.send console 104 framed
        Ev.send console 104 framed ::
          (if sent = 0 then [Ev.out (bs "error: failed to send spawn request\n")]
           else [Ev.out (bs "Loading...\n")])

/-- `cmd_load` (lib.rs:314-411). -/
def cmd_load (h : Host) (arg : List Nat) : List Ev :=
  if arg = [] then [Ev.out (bs "usage: load <path-or-url>\n")]
  else
    let is_url := starts_with arg (bs "http://") || starts_with arg (bs "https://")
    if is_url then
      let g := h.http_get arg
      if g.1 < 0 then [Ev.out (bs "error: HTTP GET failed\n")]
      else if g.2.1 ≠ 200 then
        [Ev.out (bs "error: HTTP "), Ev.out (u64dec g.2.1), Ev.out (bs "\n")]
      else
        [Ev.out (bs "Downloaded "), Ev.out (u64dec g.2.2.1), Ev.out (bs " bytes\n")] ++
          load_rest h arg g.2.2.1 g.2.2.2
    else
      let g := h.read_file arg
      if g.1 < 0 then [Ev.out (bs "error: cannot read file\n")]
      else
        [Ev.out (bs "Read "), Ev.out (u64dec g.2.1), Ev.out (bs " bytes from file\n")] ++
          load_rest h arg g.2.1 g.2.2

/-- host:port split of `cmd_mount` (lib.rs:630-633): default port 4200. -/
def mount_host_port (arg : List Nat) : List Nat × Nat :=
  match arg.findIdx? (fun b => b = 58) with
  | some pos => (arg.take pos, parse_u16 (arg.drop (pos + 1)))
  | none => (arg, 4200)

/-- the mount request payload (lib.rs:643-650):
`host_len(1) + host + port little-endian(2)`. -/
def mount_payload (arg : List Nat) : List Nat :=
  let hp := mount_host_port arg
  let hlen := min hp.1.length 250
  hlen :: (hp.1.take hlen ++ [hp.2 % 256, hp.2 / 256])

/-- `cmd_mount` (lib.rs:623-685).  Note the reply's type tag is never
inspected: only the status byte and size decide success. -/
def cmd_mount (h : Host) (arg : List Nat) : List Ev :=
  if arg = [] then [Ev.out (bs "Usage: mount <host>[:<port>]\n")]
  else
    let console_id := h.lookup (bs "console")
    if console_id = 0 then [Ev.out (bs "error: console not found\n")]
    else
      let pre := [Ev.send console_id 105 (mount_payload arg),
                  Ev.out (bs "Connecting...\n"), Ev.recv 5000]
      let r := h.recv 0 5000
      if r.1 = -2 then pre ++ [Ev.out (bs "Timeout\n")]
      else if r.1 < 0 ∨ r.2.size < 1 then pre ++ [Ev.out (bs "error: mount failed\n")]
      else if r.2.data.getD 0 0 = 0 ∧ 1 < r.2.size then
        pre ++ [Ev.out (bs "Mounted /node/"),
                Ev.out ((r.2.data.drop 1).take (min (r.2.size - 1) 31)), Ev.out (bs "\n")]
      else pre ++ [Ev.out (bs "error: connection failed\n")]

/-- the send/receive/validate tail of `cmd_caps` (lib.rs:731-770); the request
type 0xFF00001D is `-16777187` as an `i32`, and the reply tag 0xFF00001E is
compared as the `u32` 4278190110. -/
def caps_query (h : Host) (target : Int) : List Ev :=
  let rc := h.send target (-16777187) []
  let ev0 := [Ev.send target (-16777187) []]
  if rc = 0 then ev0 ++ [Ev.out (bs "error: send failed\n")]
  else
    let r := h.recv 0 5000
    let pre := ev0 ++ [Ev.recv 5000]
    if r.1 = -2 then pre ++ [Ev.out (bs "Timeout (5s)\n")]
    else if r.1 < 0 then pre ++ [Ev.out (bs "error: recv failed\n")]
    else if r.2.type = 4278190110 then pre ++ [Ev.out (r.2.data.take (min r.2.size 1024))]
    else
      pre ++ [Ev.out (bs "Unexpected reply type="), Ev.out (u64dec r.2.type),
              Ev.out (bs "\n")]

/-- `cmd_caps` (lib.rs:687-770). -/
def cmd_caps (h : Host) (arg : List Nat) : List Ev :=
  if arg = [] then
    let len := h.node_name.1
    let nb := h.node_name.2
    if len ≤ 0 then [Ev.out (bs "error: cannot get node identity\n")]
    else
      let n := min len.toNat 1024
      let path := bs "/node/" ++ nb.take n ++ bs "/caps"
      if 32768 < path.length then [Ev.out (bs "error: path too long\n")]
      else
        let id := h.lookup path
        if id = 0 then
          [Ev.out (bs "error: caps actor not found at "), Ev.out path, Ev.out (bs "\n")]
        else caps_query h id
  else
    match resolve_target h.lookup arg with
    | none => [Ev.out (bs "error: unknown target '"), Ev.out arg, Ev.out (bs "'\n")]
    | some t => caps_query h t

/-- `find_kv_proxy` (lib.rs:773-776). -/
def find_kv_proxy (h : Host) : Int := h.lookup (bs "/node/storage/kv")

/-- `history_record` (lib.rs:779-812): fire-and-forget KV PUT whose payload is
`key=history/` + 16 hex digits of the millisecond timestamp + newline +
`value=` + the command line (truncated to the remaining buffer room). -/
def history_record (h : Host) (line : List Nat) : List Ev :=
  let kv := find_kv_proxy h
  if kv = 0 then []
  else
    let ts := u64_of_i64 h.time_ms
    let payload := bs "key=history/" ++ hex16 ts ++ [10] ++ bs "value=" ++
      line.take (min line.length (32768 - 35))
    [Ev.send kv 300 payload]

/-- the per-key GET loop of `cmd_history` (lib.rs:863-905); `i` is the index
of the next receive within the command. -/
def history_fetch_loop (h : Host) (kv : Int) : Nat → List (List Nat) → List Ev
  | _, [] => []
  | i, key :: rest =>
    if key = [] then history_fetch_loop h kv i rest
    else if 4 + key.length ≤ 1024 then
      let pl := bs "key=" ++ key
      let rc := h.send kv 301 pl
      if rc ≠ 0 then
        let r := h.recv i 3000
        ([Ev.send kv 301 pl, Ev.recv 3000] ++
          (if 0 ≤ r.1 ∧ r.2.type = 311 ∧ 0 < r.2.size then
            [Ev.out (bs "  "), Ev.out (r.2.data.take (min r.2.size 1024)), Ev.out (bs "\n")]
          else [])) ++ history_fetch_loop h kv (i + 1) rest
      else Ev.send kv 301 pl :: history_fetch_loop h kv i rest
    else history_fetch_loop h kv i rest

/-- `cmd_history` (lib.rs:814-906). -/
def cmd_history (h : Host) : List Ev :=
  let kv := find_kv_proxy h
  if kv = 0 then [Ev.out (bs "error: /node/storage/kv not available\n")]
  else
    let lp := bs "prefix=history/\nlimit=20"
    let rc := h.send kv 303 lp
    if rc = 0 then [Ev.send kv 303 lp, Ev.out (bs "error: send failed\n")]
    else
      let r := h.recv 0 5000
      let pre := [Ev.send kv 303 lp, Ev.recv 5000]
      if r.1 = -2 then pre ++ [Ev.out (bs "Timeout\n")]
      else if r.1 < 0 then pre ++ [Ev.out (bs "error: recv failed\n")]
      else if r.2.type = 315 ∨ r.2.size = 0 then pre ++ [Ev.out (bs "(no history)\n")]
      else if r.2.type ≠ 313 then pre ++ [Ev.out (bs "(no history)\n")]
      else
        let copy_len := min (min r.2.size 1024) 32768
        pre ++ history_fetch_loop h kv 1 ((r.2.data.take copy_len).splitOn 10)

/-- the per-key DELETE loop of `cmd_history_clear` (lib.rs:946-966): events
plus the count of deletions dispatched. -/
def history_clear_loop (h : Host) (kv : Int) : List (List Nat) → List Ev × Nat
  | [] => ([], 0)
  | key :: rest =>
    let r := history_clear_loop h kv rest
    if key = [] then r
    else if 4 + key.length ≤ 1024 then
      (Ev.send kv 302 (bs "key=" ++ key) :: r.1, r.2 + 1)
    else r

/-- `cmd_history_clear` (lib.rs:908-971). -/
def cmd_history_clear (h : Host) : List Ev :=
  let kv := find_kv_proxy h
  if kv = 0 then [Ev.out (bs "error: /node/storage/kv not available\n")]
  else
    let lp := bs "prefix=history/\nlimit=100"
    let rc := h.send kv 303 lp
    if rc = 0 then [Ev.send kv 303 lp, Ev.out (bs "error: send failed\n")]
    else
      let r := h.recv 0 5000
      let pre := [Ev.send kv 303 lp, Ev.recv 5000]
      if r.1 = -2 then pre ++ [Ev.out (bs "Timeout\n")]
      else if r.1 < 0 then pre ++ [Ev.out (bs "error: recv failed\n")]
      else if r.2.type ≠ 313 ∨ r.2.size = 0 then
        pre ++ [Ev.out (bs "(no history to clear)\n")]
      else
        let copy_len := min (min r.2.size 1024) 32768
        let dl := history_clear_loop h kv ((r.2.data.take copy_len).splitOn 10)
        pre ++ dl.1 ++
          [Ev.out (bs "Deleted "), Ev.out (u64dec dl.2), Ev.out (bs " history entries\n")]

/-- the fixed case-sensitive verb table of `dispatch_command`
(lib.rs:981-1017). -/
def commandTable : List (List Nat) :=
  [bs "help", bs "?", bs "list", bs "ls", bs "whoami", bs "load", bs "send",
   bs "call", bs "stop", bs "register", bs "lookup", bs "self", bs "mount",
   bs "caps", bs "history", bs "exit", bs "quit"]

/-- `dispatch_command` (lib.rs:973-1024). -/
def dispatch_command (h : Host) (line : List Nat) : List Ev :=
  let trimmed := trim line
  if trimmed = [] then []
  else
    let cmd := (split_first_space trimmed).1
    let arg := (split_first_space trimmed).2
    if cmd = bs "help" ∨ cmd = bs "?" then cmd_help
    else if cmd = bs "list" then cmd_list h
    else if cmd = bs "ls" then
      if arg ≠ [] ∧ arg.getD 0 0 = 47 then cmd_ns_list h arg else cmd_list h
    else if cmd = bs "whoami" then cmd_whoami h
    else if cmd = bs "load" then cmd_load h arg
    else if cmd = bs "send" then cmd_send h arg
    else if cmd = bs "call" then cmd_call h arg
    else if cmd = bs "stop" then cmd_stop h arg
    else if cmd = bs "register" then cmd_register h arg
    else if cmd = bs "lookup" then cmd_lookup h arg
    else if cmd = bs "self" then cmd_self_id h
    else if cmd = bs "mount" then cmd_mount h arg
    else if cmd = bs "caps" then cmd_caps h arg
    else if cmd = bs "history" then
      if arg = bs "clear" then cmd_history_clear h else cmd_history h
    else if cmd = bs "exit" ∨ cmd = bs "quit" then []
    else
      [Ev.out (bs "Unknown command: "), Ev.out cmd,
       Ev.out (bs "\nType 'help' for available commands.\n")]

/-- the shell-input branch of the REPL loop in `handle_message`
(lib.rs:1102-1121): trim, check exit/quit, dispatch, then record to history
unless the (up to 256 bytes) copied command starts with `history`. -/
def handle_shell_input (h : Host) (line : List Nat) : List Ev :=
  let trimmed := trim line
  if trimmed = bs "exit" ∨ trimmed = bs "quit" then [Ev.out (bs "Goodbye.\n")]
  else
    let cmd_copy := trimmed.take 256
    dispatch_command h trimmed ++
      (if 0 < cmd_copy.length ∧ ¬ starts_with cmd_copy (bs "history") = true then
        history_record h cmd_copy
      else [])

/-- is this event the KV PUT that `history_record` sends (type tag 300)? -/
def is_kv_put (kv : Int) : Ev → Bool
  | Ev.send d ty _ => d = kv && ty = 300
  | _ => false

/-- does the trace contain a history PUT to the KV proxy? -/
def records_to (kv : Int) (evs : List Ev) : Bool := evs.any (is_kv_put kv)

/-- a default/empty reply message. -/
def msg0 : Msg := ⟨0, [], 0, 0⟩

/-- a concrete host: empty namespace, sends succeed, receives time out,
`mk_stop` fails with -1. -/
def baseHost : Host where
  lookup := fun _ => 0
  send := fun _ _ _ => 1
  recv := fun _ _ => (-2, msg0)
  node_name := (4, bs "node")
  self := 3
  time_ms := 255
  list_actors := (0, [])
  reverse_lookup := fun _ => (0, [])
  read_file := fun _ => (0, 0, [])
  http_get := fun _ => (0, 200, 0, [])
  ns_list := fun _ => (0, 0, [])
  register := fun _ => 0
  stop := fun _ => -1

/-- a host whose namespace binds only `echo` (to identity 9). -/
def hostL : Host :=
  { baseHost with lookup := fun s => if s = bs "echo" then 9 else 0 }

/-- a host that binds `console` to 8 and replies to every receive with a
message of type tag 999, payload status byte 0 then `x`, from actor 7. -/
def hostM : Host :=
  { baseHost with
      lookup := fun s => if s = bs "console" then 8 else 0
      recv := fun _ _ => (0, ⟨999, [0, 120], 2, 7⟩) }

/-- a host that binds the KV proxy path `/node/storage/kv` to identity 5. -/
def hostH : Host :=
  { baseHost with lookup := fun s => if s = bs "/node/storage/kv" then 5 else 0 }

lemma foldl_dec_mod (s : List Nat) : ∀ a : Nat,
    (s.foldl (fun x b => x * 10 + (b - 48)) (a % U64)) % U64 =
      (s.foldl (fun x b => x * 10 + (b - 48)) a) % U64 := by
  induction s with
  | nil => intro a; simp [Nat.mod_mod_of_dvd]
  | cons b rest ih =>
    intro a
    simp only [List.foldl_cons]
    have h1 : (a % U64 * 10 + (b - 48)) % U64 = (a * 10 + (b - 48)) % U64 :=
      Nat.ModEq.add_right (b - 48) (Nat.ModEq.mul_right 10 (Nat.mod_modEq a U64))
    calc (rest.foldl (fun x b => x * 10 + (b - 48)) (a % U64 * 10 + (b - 48))) % U64
        = (rest.foldl (fun x b => x * 10 + (b - 48)) ((a % U64 * 10 + (b - 48)) % U64)) % U64 :=
          (ih _).symm
      _ = (rest.foldl (fun x b => x * 10 + (b - 48)) ((a * 10 + (b - 48)) % U64)) % U64 := by
          rw [h1]
      _ = (rest.foldl (fun x b => x * 10 + (b - 48)) (a * 10 + (b - 48))) % U64 := ih _

lemma parse_u64_loop_digits (s : List Nat) : ∀ a : Nat, a < U64 →
    (∀ b ∈ s, 48 ≤ b ∧ b ≤ 57) →
    parse_u64_loop a s = some ((s.foldl (fun x b => x * 10 + (b - 48)) a) % U64) := by
  induction s with
  | nil =>
    intro a ha _
    simp [parse_u64_loop, Nat.mod_eq_of_lt ha]
  | cons b rest ih =>
    intro a ha hd
    have hb := hd b (List.mem_cons_self b rest)
    have hcond : ¬(b < 48 || 57 < b) = true := by
      simp only [Bool.or_eq_true, decide_eq_true_eq]
      omega
    simp only [parse_u64_loop, hcond, if_false, List.foldl_cons]
    rw [ih _ (Nat.mod_lt _ (by norm_num [U64])) (fun x hx => hd x (List.mem_cons_of_mem b hx))]
    have h1 : (a * 10 % U64 + (b - 48)) % U64 = (a * 10 + (b - 48)) % U64 :=
      Nat.ModEq.add_right (b - 48) (Nat.mod_modEq (a * 10) U64)
    rw [h1, foldl_dec_mod]
    simp

lemma parse_u64_digits (s : List Nat) (hne : s ≠ [])
    (hd : ∀ b ∈ s, 48 ≤ b ∧ b ≤ 57) :
    parse_u64 s = some (numValue s % 2 ^ 64) := by
  rw [parse_u64, if_neg hne, parse_u64_loop_digits s 0 (by norm_num [U64]) hd]
  rfl

/-- Claim C1: target resolution is dual-path with lookup precedence.  A name
bound to a nonzero identity resolves to that identity; when the lookup yields
the reserved invalid identity 0 and the token is a non-empty base-10 numeral
(whose value fits, as in "42"), the numeral's value is returned as a literal
identity; when both the lookup and the numeric parse fail, resolution fails
and the `stop` handler (a representative caller) reports the unknown target
to the operator. -/
theorem resolve_target_dual_path (h : Host) (tok : List Nat) (i : Int) :
    (h.lookup tok = i → i ≠ 0 → resolve_target h.lookup tok = some i) ∧
    (h.lookup tok = 0 → tok ≠ [] → (∀ b ∈ tok, 48 ≤ b ∧ b ≤ 57) →
      numValue tok < 2 ^ 63 → resolve_target h.lookup tok = some ((numValue tok : Int))) ∧
    (h.lookup tok = 0 → parse_u64 tok = none →
      resolve_target h.lookup tok = none ∧
      (tok ≠ [] → cmd_stop h tok =
        [Ev.out (bs "error: unknown target '"), Ev.out tok, Ev.out (bs "'\n")])) := by
  refine ⟨fun hl hi => ?_, fun h0 hne hd hlt => ?_, fun h0 hp => ⟨?_, fun hne => ?_⟩⟩
  · simp [resolve_target, hl, hi]
  · have hv : numValue tok % 2 ^ 64 = numValue tok :=
      Nat.mod_eq_of_lt (lt_trans hlt (by norm_num))
    have hi64 : ∀ n : Nat, n < 2 ^ 63 → i64_of_u64 n = (n : Int) := by
      intro n hn
      unfold i64_of_u64 U64
      rw [if_pos (by omega)]
      congr 1
      omega
    simp only [resolve_target, h0, parse_u64_digits tok hne hd, Option.map_some]
    rw [hv]
    simp [hi64 _ hlt]
  · simp [resolve_target, h0, hp]
  · simp [cmd_stop, hne, resolve_target, h0, hp]

/-- witness for C1 at a concrete namespace: `echo` (bound to 9) resolves to
9, the unregistered numeral "42" resolves to the literal identity 42, and the
unregistered non-numeral "ghost" fails to resolve and is reported. -/
theorem resolve_target_dual_path_witness :
    resolve_target hostL.lookup (bs "echo") = some 9 ∧
    resolve_target hostL.lookup (bs "42") = some 42 ∧
    resolve_target hostL.lookup (bs "ghost") = none ∧
    cmd_stop hostL (bs "ghost") =
      [Ev.out (bs "error: unknown target '"), Ev.out (bs "ghost"), Ev.out (bs "'\n")] := by
  refine ⟨(resolve_target_dual_path hostL (bs "echo") 9).1 (by decide) (by decide), ?_, ?_, ?_⟩
  · have h2 := (resolve_target_dual_path hostL (bs "42") 0).2.1 (by decide) (by decide)
      (by decide) (by decide)
    rw [h2]; decide
  · exact ((resolve_target_dual_path hostL (bs "ghost") 0).2.2 (by decide) (by decide)).1
  · exact ((resolve_target_dual_path hostL (bs "ghost") 0).2.2 (by decide) (by decide)).2
      (by decide)

/-- Claim C10: unsigned-numeral parsing is total on digit strings and wraps
silently modulo 2^64; a digit string that does not resolve by name still
resolves in `resolve_target` to the wrapped value reinterpreted as an `i64`
literal identity, rather than failing. -/
theorem parse_u64_total_wrapping (h : Host) (s : List Nat) (hne : s ≠ [])
    (hd : ∀ b ∈ s, 48 ≤ b ∧ b ≤ 57) (hl : h.lookup s = 0) :
    parse_u64 s = some (numValue s % 2 ^ 64) ∧
    resolve_target h.lookup s = some (i64_of_u64 (numValue s % 2 ^ 64)) := by
  have hp := parse_u64_digits s hne hd
  exact ⟨hp, by simp [resolve_target, hl, hp]⟩

/-- witness for C10: the 20-digit numeral 18446744073709551617 = 2^64 + 1
overflows `u64`; it parses (without error) to the wrapped value 1 and
resolves to the literal identity 1. -/
theorem parse_u64_total_wrapping_witness :
    parse_u64 (bs "18446744073709551617") = some 1 ∧
    resolve_target baseHost.lookup (bs "18446744073709551617") = some 1 := by
  have h := parse_u64_total_wrapping baseHost (bs "18446744073709551617")
    (by decide) (by decide) (by decide)
  exact ⟨by rw [h.1]; decide, by rw [h.2]; decide⟩

lemma suffix_wasm (f : List Nat) :
    (bs ".wasm").isSuffixOf f = true ↔ 5 ≤ f.length ∧ f.drop (f.length - 5) = bs ".wasm" := by
  rw [List.isSuffixOf_iff_suffix]
  constructor
  · rintro ⟨t, rfl⟩
    have hl : (t ++ bs ".wasm").length - 5 = t.length := by simp [bs]
    rw [hl, List.drop_left]
    simp [bs]
  · rintro ⟨h5, hd⟩
    exact ⟨f.take (f.length - 5), by rw [← hd]; exact List.take_append_drop _ f⟩

/-- counterexample for C8: on the path `.wasm` the code leaves the name as
`.wasm`, while the claimed characterization (strip a trailing `.wasm` suffix
whenever present) would strip it to the empty name. -/
theorem extract_name_spec_counterexample :
    extract_name (bs ".wasm") = bs ".wasm" ∧ extract_name_spec (bs ".wasm") = [] ∧
    extract_name (bs ".wasm") ≠ extract_name_spec (bs ".wasm") := by
  refine ⟨by decide, by decide, by decide⟩

/-- Claim C8 as amended: the three reference equations hold, and for every
path the name is the substring after the last `/`, truncated at the first
`?`, with a trailing `.wasm` stripped whenever the filename is longer than
`.wasm` itself; a filename that is exactly `.wasm` is left intact (there the
code departs from the unconditional suffix-stripping wording). -/
theorem extract_name_characterization :
    extract_name (bs "/spiffs/echo.wasm") = bs "echo" ∧
    extract_name (bs "http://host/modules/foo.wasm?v=2") = bs "foo" ∧
    extract_name (bs "noext") = bs "noext" ∧
    (∀ path : List Nat,
      (shell_filename path ≠ bs ".wasm" → extract_name path = extract_name_spec path) ∧
      (shell_filename path = bs ".wasm" → extract_name path = bs ".wasm")) := by
  refine ⟨by decide, by decide, by decide, fun path => ⟨fun hne => ?_, fun heq => ?_⟩⟩
  · unfold extract_name extract_name_spec
    by_cases hs : (bs ".wasm").isSuffixOf (shell_filename path) = true
    · obtain ⟨h5, hdrop⟩ := (suffix_wasm _).mp hs
      have hlen : (shell_filename path).length ≠ 5 := by
        intro hl
        apply hne
        have : (shell_filename path).drop 0 = bs ".wasm" := by
          rw [show (0 : Nat) = (shell_filename path).length - 5 by omega]
          exact hdrop
        simpa using this
      rw [if_pos ⟨by omega, hdrop⟩, if_pos hs]
    · have hng : ¬(5 < (shell_filename path).length ∧
          (shell_filename path).drop ((shell_filename path).length - 5) = bs ".wasm") := by
        rintro ⟨ha, hb⟩
        exact hs ((suffix_wasm _).mpr ⟨by omega, hb⟩)
      rw [if_neg hng, if_neg hs]
  · unfold extract_name
    have hng : ¬(5 < (shell_filename path).length ∧
        (shell_filename path).drop ((shell_filename path).length - 5) = bs ".wasm") := by
      rintro ⟨ha, _⟩
      rw [heq] at ha
      simp [bs] at ha
    rw [if_neg hng, heq]

/-- witness for C8's amended characterization at a concrete input:
`a.wasm` is not the bare `.wasm` filename, and there the code agrees with the
suffix-stripping description. -/
theorem extract_name_characterization_witness :
    shell_filename (bs "a.wasm") ≠ bs ".wasm" ∧
    extract_name (bs "a.wasm") = extract_name_spec (bs "a.wasm") ∧
    shell_filename (bs "/x/.wasm") = bs ".wasm" ∧
    extract_name (bs "/x/.wasm") = bs ".wasm" := by
  refine ⟨by decide, (extract_name_characterization.2.2.2 (bs "a.wasm")).1 (by decide),
    by decide, (extract_name_characterization.2.2.2 (bs "/x/.wasm")).2 (by decide)⟩

/-- Claim C2: for a `call` whose send succeeds the outcome is three-way and
the timeout case is distinguished: receive status -2 reports "Timeout (5s)"
(distinct from the "error: recv failed" of any other negative status), a
nonnegative status before the 5000 ms deadline reports the reply with type,
source, size and payload preview, and a failed send is reported immediately
with no receive performed at all. -/
theorem cmd_call_outcomes (h : Host) (arg ts rest tys pl : List Nat) (dest mt : Int)
    (h1 : split_first_space arg = (ts, rest)) (h2 : ts ≠ [])
    (h3 : resolve_target h.lookup ts = some dest)
    (h4 : split_first_space rest = (tys, pl)) (h5 : tys ≠ [])
    (h6 : parse_i32 tys = some mt) :
    (h.send dest mt pl = 0 →
      cmd_call h arg = [Ev.send dest mt pl, Ev.out (bs "error: send failed\n")] ∧
      ∀ t, Ev.recv t ∉ cmd_call h arg) ∧
    (h.send dest mt pl ≠ 0 →
      ((h.recv 0 5000).1 = -2 →
        cmd_call h arg = [Ev.send dest mt pl, Ev.recv 5000, Ev.out (bs "Timeout (5s)\n")]) ∧
      ((h.recv 0 5000).1 ≠ -2 → (h.recv 0 5000).1 < 0 →
        cmd_call h arg =
          [Ev.send dest mt pl, Ev.recv 5000, Ev.out (bs "error: recv failed\n")]) ∧
      (0 ≤ (h.recv 0 5000).1 →
        cmd_call h arg = [Ev.send dest mt pl, Ev.recv 5000] ++ reply_report (h.recv 0 5000).2)) := by
  constructor
  · intro hs
    have he : cmd_call h arg = [Ev.send dest mt pl, Ev.out (bs "error: send failed\n")] := by
      simp [cmd_call, h1, h2, h3, h4, h5, h6, hs]
    exact ⟨he, fun t => by rw [he]; simp⟩
  · intro hs
    refine ⟨fun ht => ?_, fun ht hr => ?_, fun hr => ?_⟩
    · simp [cmd_call, h1, h2, h3, h4, h5, h6, hs, ht]
    · simp [cmd_call, h1, h2, h3, h4, h5, h6, hs, ht, hr]
    · simp [cmd_call, h1, h2, h3, h4, h5, h6, hs,
        show ¬((h.recv 0 5000).1 = -2) by omega, show ¬((h.recv 0 5000).1 < 0) by omega]

/-- witness for C2 at a concrete host whose receive times out: calling
target 7 with type 3 sends, performs the timed receive, and reports the
timeout. -/
theorem cmd_call_outcomes_witness :
    cmd_call baseHost (bs "7 3") =
      [Ev.send 7 3 [], Ev.recv 5000, Ev.out (bs "Timeout (5s)\n")] :=
  ((cmd_call_outcomes baseHost (bs "7 3") (bs "7") (bs "3") (bs "3") [] 7 3
    (by decide) (by decide) (by decide) (by decide) (by decide) (by decide)).2
    (by decide)).1 (by decide)

/-- Claim C3: the generic `call` correlator performs no filtering: whatever
message the timed receive returns — any type tag, any source — is reported as
"the reply". -/
theorem cmd_call_accepts_any_reply (h : Host) (arg ts rest tys pl : List Nat)
    (dest mt rrc : Int) (m : Msg)
    (h1 : split_first_space arg = (ts, rest)) (h2 : ts ≠ [])
    (h3 : resolve_target h.lookup ts = some dest)
    (h4 : split_first_space rest = (tys, pl)) (h5 : tys ≠ [])
    (h6 : parse_i32 tys = some mt) (hs : h.send dest mt pl ≠ 0)
    (hr : h.recv 0 5000 = (rrc, m)) (hok : 0 ≤ rrc) :
    cmd_call h arg = [Ev.send dest mt pl, Ev.recv 5000] ++ reply_report m := by
  simp [cmd_call, h1, h2, h3, h4, h5, h6, hs, hr,
    show ¬(rrc = -2) by omega, show ¬(rrc < 0) by omega]

/-- witness for C3: the host replies with an unrelated message (type 999 from
actor 7); `call` still reports it as the reply. -/
theorem cmd_call_accepts_any_reply_witness :
    cmd_call hostM (bs "7 3") =
      [Ev.send 7 3 [], Ev.recv 5000] ++ reply_report ⟨999, [0, 120], 2, 7⟩ :=
  cmd_call_accepts_any_reply hostM (bs "7 3") (bs "7") (bs "3") (bs "3") [] 7 3 0
    ⟨999, [0, 120], 2, 7⟩ (by decide) (by decide) (by decide) (by decide) (by decide)
    (by decide) (by decide) (by decide) (by decide)

/-- counterexample for C5: on a host whose stop capability fails with status
-1, `stop 5` still prints the success message "Stopped actor 5" and reports
no failure — the negative status is not reported. -/
theorem cmd_stop_negative_status_counterexample :
    baseHost.stop 5 = -1 ∧
    cmd_stop baseHost (bs "5") =
      [Ev.stop 5, Ev.out (bs "Stopped actor "), Ev.out (bs "5"), Ev.out (bs "\n")] := by
  refine ⟨by decide, by decide⟩

/-- Claim C5 as amended: most handlers report a negative host status with a
short tag, but `cmd_stop` does not: whenever the target resolves it issues
the stop and unconditionally prints "Stopped actor <id>", whatever status the
host stop call returns (the status is discarded). -/
theorem cmd_stop_ignores_status (h : Host) (arg : List Nat) (id : Int)
    (hne : arg ≠ []) (hres : resolve_target h.lookup arg = some id) :
    cmd_stop h arg = [Ev.stop id, Ev.out (bs "Stopped actor "),
      Ev.out (u64dec (u64_of_i64 id)), Ev.out (bs "\n")] := by
  simp [cmd_stop, hne, hres]

/-- witness for C5's amended statement: with the stop capability failing
(status -1), `stop 5` resolves and prints the success message anyway. -/
theorem cmd_stop_ignores_status_witness :
    cmd_stop baseHost (bs "5") = [Ev.stop 5, Ev.out (bs "Stopped actor "),
      Ev.out (u64dec (u64_of_i64 5)), Ev.out (bs "\n")] :=
  cmd_stop_ignores_status baseHost (bs "5") 5 (by decide) (by decide)

/-- counterexample for C4: the host answers the mount request with a message
whose type tag is 999 — not the mount-response tag 106 — yet `mount` declares
success ("Mounted /node/..."), because the code never inspects the reply
type; only the status byte and size are checked. -/
theorem cmd_mount_no_type_check_counterexample :
    (hostM.recv 0 5000).2.type = 999 ∧
    Ev.out (bs "Mounted /node/") ∈ cmd_mount hostM (bs "h") := by
  refine ⟨by decide, by decide⟩

/-- Claim C4 as amended: `caps` declares success (printing the payload) only
when the received type equals the capability-reply tag 0xFF00001E, reporting
any other type as unexpected; `mount` declares success ("Mounted
/node/<identity>") exactly when the status byte is 0 and a non-empty identity
follows (bounded to 31 bytes for display), reporting failure otherwise — but
`mount` does not inspect the reply's type tag at all. -/
theorem caps_mount_reply_validation :
    (∀ (h : Host) (arg : List Nat) (dest : Int),
      arg ≠ [] → resolve_target h.lookup arg = some dest →
      h.send dest (-16777187) [] ≠ 0 → 0 ≤ (h.recv 0 5000).1 →
      ((h.recv 0 5000).2.type = 4278190110 →
        cmd_caps h arg = [Ev.send dest (-16777187) [], Ev.recv 5000,
          Ev.out ((h.recv 0 5000).2.data.take (min (h.recv 0 5000).2.size 1024))]) ∧
      ((h.recv 0 5000).2.type ≠ 4278190110 →
        cmd_caps h arg = [Ev.send dest (-16777187) [], Ev.recv 5000,
          Ev.out (bs "Unexpected reply type="), Ev.out (u64dec (h.recv 0 5000).2.type),
          Ev.out (bs "\n")])) ∧
    (∀ (h : Host) (arg : List Nat),
      arg ≠ [] → h.lookup (bs "console") ≠ 0 →
      0 ≤ (h.recv 0 5000).1 → 1 ≤ (h.recv 0 5000).2.size →
      (((h.recv 0 5000).2.data.getD 0 0 = 0 ∧ 1 < (h.recv 0 5000).2.size) →
        cmd_mount h arg = [Ev.send (h.lookup (bs "console")) 105 (mount_payload arg),
          Ev.out (bs "Connecting...\n"), Ev.recv 5000, Ev.out (bs "Mounted /node/"),
          Ev.out (((h.recv 0 5000).2.data.drop 1).take (min ((h.recv 0 5000).2.size - 1) 31)),
          Ev.out (bs "\n")]) ∧
      (¬((h.recv 0 5000).2.data.getD 0 0 = 0 ∧ 1 < (h.recv 0 5000).2.size) →
        cmd_mount h arg = [Ev.send (h.lookup (bs "console")) 105 (mount_payload arg),
          Ev.out (bs "Connecting...\n"), Ev.recv 5000,
          Ev.out (bs "error: connection failed\n")])) := by
  constructor
  · intro h arg dest hne hres hsend hrc
    have hn2 : ¬((h.recv 0 5000).1 = -2) := by omega
    have hn0 : ¬((h.recv 0 5000).1 < 0) := by omega
    refine ⟨fun hty => ?_, fun hty => ?_⟩
    · simp [cmd_caps, hne, hres, caps_query, hsend, hn2, hn0, hty]
    · simp [cmd_caps, hne, hres, caps_query, hsend, hn2, hn0, hty]
  · intro h arg hne hcons hrc hsz
    have hn2 : ¬((h.recv 0 5000).1 = -2) := by omega
    have hn0 : ¬((h.recv 0 5000).1 < 0 ∨ (h.recv 0 5000).2.size < 1) := by omega
    refine ⟨fun hok => ?_, fun hok => ?_⟩
    · simp only [cmd_mount]
      rw [if_neg hne, if_neg hcons, if_neg hn2, if_neg hn0, if_pos hok]
      rfl
    · simp only [cmd_mount]
      rw [if_neg hne, if_neg hcons, if_neg hn2, if_neg hn0, if_neg hok]
      rfl

/-- witness for C4's amended statement on a concrete host: `caps 9` receives
type 999 and reports it as unexpected; `mount h` receives status byte 0 and
identity `x` and reports the mount (with no type check involved). -/
theorem caps_mount_reply_validation_witness :
    cmd_caps hostM (bs "9") = [Ev.send 9 (-16777187) [], Ev.recv 5000,
      Ev.out (bs "Unexpected reply type="), Ev.out (u64dec 999), Ev.out (bs "\n")] ∧
    cmd_mount hostM (bs "h") = [Ev.send 8 105 (mount_payload (bs "h")),
      Ev.out (bs "Connecting...\n"), Ev.recv 5000, Ev.out (bs "Mounted /node/"),
      Ev.out [120], Ev.out (bs "\n")] := by
  constructor
  · have he := (caps_mount_reply_validation.1 hostM (bs "9") 9 (by decide) (by decide)
      (by decide) (by decide)).2 (by decide)
    rw [he]; decide
  · have he := (caps_mount_reply_validation.2 hostM (bs "h") (by decide) (by decide)
      (by decide) (by decide)).1 (by decide)
    rw [he]; decide

/-- numeric value of a lowercase hex digit byte (inverse of the `hexTable`
rendering); used to state what the key encodes. -/
def hexVal (d : Nat) : Nat := if d ≤ 57 then d - 48 else d - 87

lemma hex_val_table : ∀ n < 16, hexVal (hexTable.getD n 0) = n := by decide

lemma hex_table_mono : ∀ a < 16, ∀ b < 16, a < b → hexTable.getD a 0 < hexTable.getD b 0 := by
  decide

lemma range_rev_map_succ (f : Nat → Nat) (k : Nat) :
    (List.range (k + 1)).reverse.map f = f k :: (List.range k).reverse.map f := by
  simp [List.range_succ]

lemma foldl_hex (t : Nat) : ∀ (k a : Nat),
    ((List.range k).reverse.map (fun i => hexTable.getD (t / 16 ^ i % 16) 0)).foldl
      (fun a d => a * 16 + hexVal d) a = a * 16 ^ k + t % 16 ^ k := by
  intro k
  induction k with
  | zero => intro a; simp [Nat.mod_one]
  | succ k ih =>
    intro a
    rw [range_rev_map_succ]
    simp only [List.foldl_cons]
    rw [hex_val_table _ (Nat.mod_lt _ (by norm_num)), ih]
    have hm : t % 16 ^ (k + 1) = t % 16 ^ k + 16 ^ k * (t / 16 ^ k % 16) := by
      rw [pow_succ, Nat.mod_mul]
    rw [hm]
    ring

lemma hex_digits_lex : ∀ (k t1 t2 : Nat), t1 % 16 ^ k < t2 % 16 ^ k →
    List.Lex (· < ·)
      ((List.range k).reverse.map (fun i => hexTable.getD (t1 / 16 ^ i % 16) 0))
      ((List.range k).reverse.map (fun i => hexTable.getD (t2 / 16 ^ i % 16) 0)) := by
  intro k
  induction k with
  | zero => intro t1 t2 h; simp [Nat.mod_one] at h
  | succ k ih =>
    intro t1 t2 h
    rw [range_rev_map_succ, range_rev_map_succ]
    have hm1 : t1 % 16 ^ (k + 1) = t1 % 16 ^ k + 16 ^ k * (t1 / 16 ^ k % 16) := by
      rw [pow_succ, Nat.mod_mul]
    have hm2 : t2 % 16 ^ (k + 1) = t2 % 16 ^ k + 16 ^ k * (t2 / 16 ^ k % 16) := by
      rw [pow_succ, Nat.mod_mul]
    rw [hm1, hm2] at h
    have hr1 : t1 % 16 ^ k < 16 ^ k := Nat.mod_lt _ (by positivity)
    have hr2 : t2 % 16 ^ k < 16 ^ k := Nat.mod_lt _ (by positivity)
    rcases Nat.lt_trichotomy (t1 / 16 ^ k % 16) (t2 / 16 ^ k % 16) with hlt | heq | hgt
    · exact List.Lex.rel (hex_table_mono _ (Nat.mod_lt _ (by norm_num)) _
        (Nat.mod_lt _ (by norm_num)) hlt)
    · rw [heq]
      refine List.Lex.cons (ih t1 t2 ?_)
      rw [heq] at h
      omega
    · exfalso
      have hmul : 16 ^ k * (t2 / 16 ^ k % 16 + 1) ≤ 16 ^ k * (t1 / 16 ^ k % 16) :=
        Nat.mul_le_mul_left _ (Nat.succ_le_of_lt hgt)
      rw [Nat.mul_succ] at hmul
      omega

lemma hex16_value (t : Nat) (ht : t < 2 ^ 64) :
    (hex16 t).foldl (fun a d => a * 16 + hexVal d) 0 = t := by
  have h := foldl_hex t 16 0
  rw [hex16, h]
  have he : (16 : Nat) ^ 16 = 2 ^ 64 := by norm_num
  rw [he, Nat.mod_eq_of_lt ht]
  ring

lemma hex16_lex (t1 t2 : Nat) (h1 : t1 < 2 ^ 64) (h2 : t2 < 2 ^ 64) (hlt : t1 < t2) :
    List.Lex (· < ·) (hex16 t1) (hex16 t2) := by
  have e : (16 : Nat) ^ 16 = 2 ^ 64 := by norm_num
  apply hex_digits_lex 16 t1 t2
  rw [e, Nat.mod_eq_of_lt h1, Nat.mod_eq_of_lt h2]
  exact hlt

lemma u64_of_i64_lt (i : Int) : u64_of_i64 i < 2 ^ 64 := by
  have h1 := Int.emod_nonneg i (show (2 ^ 64 : Int) ≠ 0 by norm_num)
  have h2 := Int.emod_lt_of_pos i (show (0 : Int) < 2 ^ 64 by norm_num)
  rw [u64_of_i64]
  omega

/-- Claim C7: for every recorded command line (the REPL records at most
32733 bytes; in fact at most 256), `history_record` sends exactly one KV PUT
whose payload is `key=history/`, then exactly 16 zero-padded lowercase hex
digits encoding the millisecond timestamp most-significant-nibble first (so
that, as the big-endian rendering, lexicographic key order matches
chronological order — the final conjunct), then a newline, then `value=`
followed by the raw command line bytes. -/
theorem history_record_put (h : Host) (line : List Nat)
    (hkv : find_kv_proxy h ≠ 0) (hlen : line.length ≤ 32733) :
    history_record h line =
      [Ev.send (find_kv_proxy h) 300
        (bs "key=history/" ++ hex16 (u64_of_i64 h.time_ms) ++ [10] ++ bs "value=" ++ line)] ∧
    (hex16 (u64_of_i64 h.time_ms)).length = 16 ∧
    (∀ d ∈ hex16 (u64_of_i64 h.time_ms), d ∈ hexTable) ∧
    (hex16 (u64_of_i64 h.time_ms)).foldl (fun a d => a * 16 + hexVal d) 0 =
      u64_of_i64 h.time_ms ∧
    (∀ t1 t2 : Nat, t1 < 2 ^ 64 → t2 < 2 ^ 64 → t1 < t2 →
      List.Lex (· < ·) (hex16 t1) (hex16 t2)) := by
  refine ⟨?_, by simp [hex16], ?_, hex16_value _ (u64_of_i64_lt h.time_ms), hex16_lex⟩
  · have hmin : min line.length (32768 - 35) = line.length := by omega
    simp [history_record, hkv, hmin]
  · intro d hd
    rw [hex16] at hd
    obtain ⟨i, _, rfl⟩ := List.mem_map.mp hd
    have hall : ∀ m < 16, hexTable.getD m 0 ∈ hexTable := by decide
    exact hall _ (Nat.mod_lt _ (by norm_num))

/-- witness for C7: on a host whose clock reads 255 ms and whose KV proxy is
actor 5, recording "stop 5" sends one PUT with key
`history/00000000000000ff` and value portion exactly `value=stop 5`. -/
theorem history_record_put_witness :
    history_record hostH (bs "stop 5") =
      [Ev.send 5 300 (bs "key=history/00000000000000ff\nvalue=stop 5")] := by
  have h := (history_record_put hostH (bs "stop 5") (by decide) (by decide)).1
  rw [h]; decide

/-- Claim C9: command dispatch is total (it is a total function of the input
line and host, so it cannot fault), and for every input byte string either
the trimmed line is empty and dispatch is a no-op, or the verb — the segment
before the first run of whitespace — exactly matches an entry of the fixed
case-sensitive command table, or the trace is exactly the diagnostic naming
the unrecognized verb plus the help hint, so the loop continues. -/
theorem dispatch_total (h : Host) (line : List Nat) :
    (trim line = [] ∧ dispatch_command h line = []) ∨
    (split_first_space (trim line)).1 ∈ commandTable ∨
    dispatch_command h line =
      [Ev.out (bs "Unknown command: "), Ev.out (split_first_space (trim line)).1,
       Ev.out (bs "\nType 'help' for available commands.\n")] := by
  by_cases ht : trim line = []
  · exact Or.inl ⟨ht, by simp [dispatch_command, ht]⟩
  by_cases h1 : (split_first_space (trim line)).1 = bs "help" ∨
      (split_first_space (trim line)).1 = bs "?"
  · rcases h1 with h | h <;> exact Or.inr (Or.inl (by rw [h]; decide))
  by_cases h2 : (split_first_space (trim line)).1 = bs "list"
  · exact Or.inr (Or.inl (by rw [h2]; decide))
  by_cases h3 : (split_first_space (trim line)).1 = bs "ls"
  · exact Or.inr (Or.inl (by rw [h3]; decide))
  by_cases h4 : (split_first_space (trim line)).1 = bs "whoami"
  · exact Or.inr (Or.inl (by rw [h4]; decide))
  by_cases h5 : (split_first_space (trim line)).1 = bs "load"
  · exact Or.inr (Or.inl (by rw [h5]; decide))
  by_cases h6 : (split_first_space (trim line)).1 = bs "send"
  · exact Or.inr (Or.inl (by rw [h6]; decide))
  by_cases h7 : (split_first_space (trim line)).1 = bs "call"
  · exact Or.inr (Or.inl (by rw [h7]; decide))
  by_cases h8 : (split_first_space (trim line)).1 = bs "stop"
  · exact Or.inr (Or.inl (by rw [h8]; decide))
  by_cases h9 : (split_first_space (trim line)).1 = bs "register"
  · exact Or.inr (Or.inl (by rw [h9]; decide))
  by_cases h10 : (split_first_space (trim line)).1 = bs "lookup"
  · exact Or.inr (Or.inl (by rw [h10]; decide))
  by_cases h11 : (split_first_space (trim line)).1 = bs "self"
  · exact Or.inr (Or.inl (by rw [h11]; decide))
  by_cases h12 : (split_first_space (trim line)).1 = bs "mount"
  · exact Or.inr (Or.inl (by rw [h12]; decide))
  by_cases h13 : (split_first_space (trim line)).1 = bs "caps"
  · exact Or.inr (Or.inl (by rw [h13]; decide))
  by_cases h14 : (split_first_space (trim line)).1 = bs "history"
  · exact Or.inr (Or.inl (by rw [h14]; decide))
  by_cases h15 : (split_first_space (trim line)).1 = bs "exit" ∨
      (split_first_space (trim line)).1 = bs "quit"
  · rcases h15 with h | h <;> exact Or.inr (Or.inl (by rw [h]; decide))
  refine Or.inr (Or.inr ?_)
  simp only [dispatch_command]
  rw [if_neg ht, if_neg h1, if_neg h2, if_neg h3, if_neg h4, if_neg h5, if_neg h6,
      if_neg h7, if_neg h8, if_neg h9, if_neg h10, if_neg h11, if_neg h12, if_neg h13,
      if_neg h14, if_neg h15]

lemma trim_eq_rdrop (s : List Nat) :
    trim s = List.rdropWhile isSpaceByte (List.dropWhile isSpaceByte s) := rfl

lemma dropWhile_rdropWhile (t : List Nat) (ht : List.dropWhile isSpaceByte t = t) :
    List.dropWhile isSpaceByte (List.rdropWhile isSpaceByte t) =
      List.rdropWhile isSpaceByte t := by
  rw [List.dropWhile_eq_self_iff] at ht ⊢
  intro hl
  have hpre := List.rdropWhile_prefix isSpaceByte (l := t)
  have hlt : 0 < t.length := lt_of_lt_of_le hl hpre.length_le
  have hget : t.get ⟨0, hlt⟩ = (List.rdropWhile isSpaceByte t).get ⟨0, hl⟩ := by
    simp only [List.get_eq_getElem]
    exact (hpre.getElem hl).symm
  have := ht hlt
  rw [hget] at this
  exact this

lemma trim_idem (s : List Nat) : trim (trim s) = trim s := by
  rw [trim_eq_rdrop s, trim_eq_rdrop,
    dropWhile_rdropWhile _ (List.dropWhile_idempotent _ _),
    List.rdropWhile_idempotent]

lemma starts_with_iff (t n : List Nat) :
    starts_with t n = true ↔ n.length ≤ t.length ∧ t.take n.length = n := by
  simp [starts_with]

lemma starts_with_take (t : List Nat) :
    starts_with (t.take 256) (bs "history") = starts_with t (bs "history") := by
  have h7 : (bs "history").length = 7 := rfl
  simp only [starts_with, h7, List.take_take, List.length_take]
  have hmin : (7 : Nat) ⊓ 256 = 7 := by norm_num
  rw [hmin]
  congr 1
  exact decide_eq_decide.mpr (by omega)

lemma starts_with_history_decomp (t : List Nat)
    (hs : starts_with t (bs "history") = true) :
    t = bs "history" ++ t.drop 7 := by
  obtain ⟨hlen, htake⟩ := (starts_with_iff t (bs "history")).mp hs
  conv_lhs => rw [← List.take_append_drop 7 t]
  rw [show t.take 7 = bs "history" from htake]

lemma split_history (r : List Nat) :
    split_first_space (bs "history" ++ r) =
      (bs "history" ++ (split_first_space r).1, (split_first_space r).2) := by
  show split_first_space (104 :: 105 :: 115 :: 116 :: 111 :: 114 :: 121 :: r) = _
  simp [split_first_space]
  rfl

lemma fetch_loop_no_put (h : Host) (kv kv2 : Int) :
    ∀ (i : Nat) (ks : List (List Nat)),
      (history_fetch_loop h kv i ks).any (is_kv_put kv2) = false := by
  intro i ks
  induction ks generalizing i with
  | nil => simp [history_fetch_loop]
  | cons key rest ih =>
    simp only [history_fetch_loop]
    split_ifs <;> simp [List.any_append, List.any_cons, is_kv_put, ih]

lemma clear_loop_no_put (h : Host) (kv kv2 : Int) :
    ∀ ks : List (List Nat),
      ((history_clear_loop h kv ks).1).any (is_kv_put kv2) = false := by
  intro ks
  induction ks with
  | nil => simp [history_clear_loop]
  | cons key rest ih =>
    simp only [history_clear_loop]
    split_ifs <;> simp [List.any_cons, is_kv_put, ih]

lemma cmd_history_no_put (h : Host) (kv2 : Int) :
    (cmd_history h).any (is_kv_put kv2) = false := by
  simp only [cmd_history]
  split_ifs with h1 h2 h3 h4 h5 h6 <;>
    simp [is_kv_put, List.any_append, fetch_loop_no_put]

lemma cmd_history_clear_no_put (h : Host) (kv2 : Int) :
    (cmd_history_clear h).any (is_kv_put kv2) = false := by
  simp only [cmd_history_clear]
  split_ifs with h1 h2 h3 h4 h5 <;>
    simp [is_kv_put, List.any_append, clear_loop_no_put]

lemma history_append_ne (c' v : List Nat) (hv : bs "history" ≠ v.take 7) :
    bs "history" ++ c' ≠ v := by
  intro heq
  have h2 := congrArg (List.take 7) heq
  rw [List.take_left' (by rfl)] at h2
  exact hv h2

lemma dispatch_history_no_put (h : Host) (t : List Nat) (kv2 : Int)
    (htr : trim t = t) (hsw : starts_with t (bs "history") = true) :
    (dispatch_command h t).any (is_kv_put kv2) = false := by
  obtain ⟨hlen, htake⟩ := (starts_with_iff t (bs "history")).mp hsw
  have hdec : t = bs "history" ++ t.drop 7 := starts_with_history_decomp t hsw
  have htne : t ≠ [] := by
    intro hnil
    rw [hnil] at hlen
    simp [bs] at hlen
  have hcmd : (split_first_space (trim t)).1 =
      bs "history" ++ (split_first_space (t.drop 7)).1 := by
    rw [htr]
    conv_lhs => rw [hdec]
    rw [split_history]
  have harg : (split_first_space (trim t)).2 = (split_first_space (t.drop 7)).2 := by
    rw [htr]
    conv_lhs => rw [hdec]
    rw [split_history]
  have hne' : trim t ≠ [] := by
    rw [htr]
    exact htne
  simp only [dispatch_command]
  rw [if_neg hne', hcmd, harg]
  rw [if_neg (show ¬(bs "history" ++ (split_first_space (t.drop 7)).1 = bs "help" ∨
        bs "history" ++ (split_first_space (t.drop 7)).1 = bs "?") by
      rintro (hx | hx)
      · exact history_append_ne _ _ (by decide) hx
      · exact history_append_ne _ _ (by decide) hx),
    if_neg (history_append_ne _ (bs "list") (by decide)),
    if_neg (history_append_ne _ (bs "ls") (by decide)),
    if_neg (history_append_ne _ (bs "whoami") (by decide)),
    if_neg (history_append_ne _ (bs "load") (by decide)),
    if_neg (history_append_ne _ (bs "send") (by decide)),
    if_neg (history_append_ne _ (bs "call") (by decide)),
    if_neg (history_append_ne _ (bs "stop") (by decide)),
    if_neg (history_append_ne _ (bs "register") (by decide)),
    if_neg (history_append_ne _ (bs "lookup") (by decide)),
    if_neg (history_append_ne _ (bs "self") (by decide)),
    if_neg (history_append_ne _ (bs "mount") (by decide)),
    if_neg (history_append_ne _ (bs "caps") (by decide))]
  by_cases hc : (split_first_space (t.drop 7)).1 = []
  · rw [if_pos (by rw [hc]; rfl)]
    split_ifs
    · exact cmd_history_clear_no_put h kv2
    · exact cmd_history_no_put h kv2
  · rw [if_neg (show ¬(bs "history" ++ (split_first_space (t.drop 7)).1 = bs "history") by
        intro hx
        exact hc (by simpa using hx)),
      if_neg (show ¬(bs "history" ++ (split_first_space (t.drop 7)).1 = bs "exit" ∨
          bs "history" ++ (split_first_space (t.drop 7)).1 = bs "quit") by
        rintro (hx | hx)
        · exact history_append_ne _ _ (by decide) hx
        · exact history_append_ne _ _ (by decide) hx)]
    simp [is_kv_put]

/-- counterexample for C6: `historyx` is a non-empty command line whose verb
is not `history` (it is an unrecognized verb), so by the claim it should be
recorded; but the REPL's prefix test skips it: no KV PUT is sent even though
the KV proxy is available. -/
theorem history_recording_counterexample :
    trim (bs "historyx") ≠ [] ∧
    (split_first_space (trim (bs "historyx"))).1 ≠ bs "history" ∧
    find_kv_proxy hostH = 5 ∧
    records_to 5 (handle_shell_input hostH (bs "historyx")) = false := by
  refine ⟨by decide, by decide, by decide, by decide⟩

/-- Claim C6 as amended: a dispatched shell-input line is recorded to history
(a fire-and-forget KV PUT, given the KV proxy resolves) exactly when the
trimmed line is non-empty and does not START with the bytes `history` — a
prefix test, so unrecognized verbs beginning with `history` (such as
`historyx`) are also skipped, not only actual `history` commands. -/
theorem history_recording_condition (h : Host) (line : List Nat)
    (hkv : find_kv_proxy h ≠ 0)
    (hx1 : trim line ≠ bs "exit") (hx2 : trim line ≠ bs "quit") :
    records_to (find_kv_proxy h) (handle_shell_input h line) = true ↔
      (trim line ≠ [] ∧ starts_with ((trim line).take 256) (bs "history") = false) := by
  have hno : ¬(trim line = bs "exit" ∨ trim line = bs "quit") := by tauto
  constructor
  · intro hrec
    by_cases hA : trim line = []
    · exfalso
      have hstep : handle_shell_input h line = [] := by
        simp only [handle_shell_input]
        rw [if_neg hno, hA]
        rfl
      rw [hstep] at hrec
      simp [records_to] at hrec
    · by_cases hB : starts_with ((trim line).take 256) (bs "history") = true
      · exfalso
        have hB' : starts_with (trim line) (bs "history") = true := by
          rw [← starts_with_take]
          exact hB
        have hT : handle_shell_input h line = dispatch_command h (trim line) := by
          simp only [handle_shell_input]
          rw [if_neg hno, if_neg (by rintro ⟨_, hx⟩; exact hx hB), List.append_nil]
        rw [hT, records_to, dispatch_history_no_put h (trim line) _ (trim_idem line) hB']
          at hrec
        exact absurd hrec (by simp)
      · exact ⟨hA, by simpa using hB⟩
  · rintro ⟨hne, hsw⟩
    have hpos : 0 < ((trim line).take 256).length := by
      simp only [List.length_take]
      have := List.length_pos.mpr hne
      omega
    have hnsw : ¬ starts_with ((trim line).take 256) (bs "history") = true := by
      rw [hsw]
      simp
    simp only [handle_shell_input]
    rw [if_neg hno, if_pos ⟨hpos, hnsw⟩, records_to, List.any_append]
    simp only [history_record, find_kv_proxy] at hkv ⊢
    rw [if_neg hkv]
    simp [is_kv_put]

/-- witness for C6's amended statement at concrete inputs: `stop 9` is
recorded (one KV PUT to the proxy), while `history` (which begins with the
prefix) is not. -/
theorem history_recording_condition_witness :
    records_to (find_kv_proxy hostH) (handle_shell_input hostH (bs "stop 9")) = true ∧
    records_to (find_kv_proxy hostH) (handle_shell_input hostH (bs "history")) = false := by
  constructor
  · exact (history_recording_condition hostH (bs "stop 9") (by decide) (by decide)
      (by decide)).mpr ⟨by decide, by decide⟩
  · have hiff := history_recording_condition hostH (bs "history") (by decide) (by decide)
      (by decide)
    have hnot : ¬(records_to (find_kv_proxy hostH)
        (handle_shell_input hostH (bs "history")) = true) := by
      rw [hiff]
      rintro ⟨_, hx⟩
      revert hx
      decide
    simpa using hnot
